import Mathlib

/-!
Shallow embedding of the experiment loop and metric-aggregation protocol of
the repository (src/code/experiments.py) and of the data-split construction
(src/dataset/data_loaders.py).

Conventions of the embedding:
* Python floats are modelled as rationals; numpy mean and the square of
  numpy std are the corresponding exact rational operations.
* The diagnostics dictionary returned by an inference backend is modelled
  as a record of optional values over the fixed key vocabulary; a Python
  dictionary lookup that can raise KeyError is modelled in the Except monad,
  with the missing key as the error value.
* The module-level trial loop of experiments.py (lines 78-134) is modelled
  as a function of the configuration and of a backend mapping each seed to
  its diagnostics record; the imperative side effects of a trial (seeding,
  model construction, parameter-store clearing, guide construction,
  inference invocation) are recorded as an explicit event trace.
-/

/-- The fixed diagnostics key vocabulary of experiments.py lines 109-134. -/
inductive DiagKey
  | train_time
  | cal_error
  | new_cal_error
  | width
  | new_width
  | crps
  | new_crps
  | mse
  | new_mse
  | coverage
  | new_coverage
  | final_loss
  | inference_time
  | e_crps
deriving DecidableEq, Repr

/-- A diagnostics record as returned by a backend: a backend-dependent
subset of the fixed key vocabulary, modelled as optional values. -/
structure Diagnostics where
  train_time : Option ℚ
  cal_error : Option ℚ
  new_cal_error : Option ℚ
  width : Option ℚ
  new_width : Option ℚ
  crps : Option ℚ
  new_crps : Option ℚ
  mse : Option ℚ
  new_mse : Option ℚ
  coverage : Option ℚ
  new_coverage : Option ℚ
  final_loss : Option ℚ
  inference_time : Option ℚ
  e_crps : Option ℚ
deriving DecidableEq, Repr

/-- The values appended for one trial, one per diagnostics key. -/
structure TrialMetrics where
  train_time : ℚ
  cal_error : ℚ
  new_cal_error : ℚ
  width : ℚ
  new_width : ℚ
  crps : ℚ
  new_crps : ℚ
  mse : ℚ
  new_mse : ℚ
  coverage : ℚ
  new_coverage : ℚ
  final_loss : ℚ
  inference_time : ℚ
  e_crps : ℚ
deriving DecidableEq, Repr

/-- The fourteen per-metric lists of experiments.py lines 68-76, named after
the Python variables. -/
structure MetricSeries where
  train_times : List ℚ
  inf_times : List ℚ
  cal_errors : List ℚ
  new_cal_errors : List ℚ
  e_crpss : List ℚ
  crpss : List ℚ
  new_crpss : List ℚ
  losses : List ℚ
  widths : List ℚ
  new_widths : List ℚ
  mses : List ℚ
  new_mses : List ℚ
  coverages : List ℚ
  new_coverages : List ℚ
deriving DecidableEq, Repr

/-- A mandatory dictionary lookup, experiments.py lines 109-119: the value
when the key is present, KeyError naming the key otherwise. -/
def reqKey (k : DiagKey) : Option ℚ → Except DiagKey ℚ
  | some v => Except.ok v
  | none => Except.error k

/-- Diagnostics extraction of one trial, experiments.py lines 109-134: the
eleven keys of lines 109-119 are looked up unconditionally (KeyError if
absent); final_loss, inference_time and e_crps (lines 121-134) are guarded
by a membership test and default to zero when absent. -/
def extractDiagnostics (d : Diagnostics) : Except DiagKey TrialMetrics :=
  (reqKey DiagKey.train_time d.train_time).bind fun tt =>
  (reqKey DiagKey.cal_error d.cal_error).bind fun ce =>
  (reqKey DiagKey.new_cal_error d.new_cal_error).bind fun nce =>
  (reqKey DiagKey.width d.width).bind fun w =>
  (reqKey DiagKey.new_width d.new_width).bind fun nw =>
  (reqKey DiagKey.crps d.crps).bind fun cr =>
  (reqKey DiagKey.new_crps d.new_crps).bind fun ncr =>
  (reqKey DiagKey.mse d.mse).bind fun msev =>
  (reqKey DiagKey.new_mse d.new_mse).bind fun nmse =>
  (reqKey DiagKey.coverage d.coverage).bind fun cov =>
  (reqKey DiagKey.new_coverage d.new_coverage).bind fun ncov =>
  Except.ok
    { train_time := tt
      cal_error := ce
      new_cal_error := nce
      width := w
      new_width := nw
      crps := cr
      new_crps := ncr
      mse := msev
      new_mse := nmse
      coverage := cov
      new_coverage := ncov
      final_loss := d.final_loss.getD 0
      inference_time := d.inference_time.getD 0
      e_crps := d.e_crps.getD 0 }

/-- The experiment configuration dictionary, experiments.py lines 17-34. -/
structure Config where
  dataset : String
  model_widths : List ℕ
  activation : String
  distributions : List String
  parameters : List (List ℚ)
  dim_reduction : Bool
  num_chains : ℕ
  num_samples : ℕ
  inference : String
  lr : ℚ
  num_iterations : ℕ
  rank : Option ℕ
  plot : Bool
  seed : ℕ
  print_results : Bool
  sweep : Bool
deriving DecidableEq, Repr

def aceaName : String := "acea"

def tanhName : String := "tanh"

def gaussName : String := "gauss"

def unifName : String := "unif"

def ssvsName : String := "ssvs"

def qRegrName : String := "q_regr"

/-- The default configuration values of experiments.py lines 17-34. -/
def cDefault : Config :=
  { dataset := aceaName
    model_widths := [512, 1]
    activation := tanhName
    distributions := [gaussName, unifName, gaussName]
    parameters := [[0, 1], [0, 10]]
    dim_reduction := false
    num_chains := 10
    num_samples := 1000
    inference := qRegrName
    lr := 1 / 1000
    num_iterations := 500
    rank := none
    plot := true
    seed := 1
    print_results := true
    sweep := false }

/-- The kind of model object built by the dispatch of experiments.py
lines 83-88. -/
inductive ModelKind
  | horseshoeSSVS
  | torchQuantile
  | bayesian
deriving DecidableEq, Repr

/-- The kind of autoguide built by experiments.py lines 96-99. -/
inductive GuideKind
  | autoMultivariateNormal
  | autoLowRankMultivariateNormal (rank : Option ℕ)
deriving DecidableEq, Repr

/-- Model dispatch, experiments.py lines 83-88: an if/elif chain on the
inference name whose final else branch builds a BayesianModel for every
value that is neither ssvs nor q_regr. -/
def modelDispatch (c : Config) : ModelKind :=
  if c.inference = ssvsName then ModelKind.horseshoeSSVS
  else if c.inference = qRegrName then ModelKind.torchQuantile
  else ModelKind.bayesian

/-- Guide dispatch, experiments.py lines 96-99. -/
def guideDispatch (c : Config) : GuideKind :=
  if c.dim_reduction then GuideKind.autoMultivariateNormal
  else GuideKind.autoLowRankMultivariateNormal c.rank

/-- The observable side effects of one trial iteration, in program order. -/
inductive Event
  | setSeed (s : ℕ)
  | buildTorchModel
  | buildModel (k : ModelKind)
  | clearParamStore
  | buildGuide (g : GuideKind)
  | runInference
deriving DecidableEq, Repr

def Event.isSetSeed : Event → Bool
  | Event.setSeed _ => true
  | _ => false

def Event.isBuildModel : Event → Bool
  | Event.buildModel _ => true
  | _ => false

def Event.isClearStore : Event → Bool
  | Event.clearParamStore => true
  | _ => false

def Event.isBuildGuide : Event → Bool
  | Event.buildGuide _ => true
  | _ => false

def Event.isRunInference : Event → Bool
  | Event.runInference => true
  | _ => false

/-- The side effects of the trial for seed s, in the statement order of
experiments.py lines 78-106: pyro.set_rng_seed(s) (line 80), TorchModel
construction (line 82), the model dispatch (lines 83-88),
pyro.clear_param_store() (line 90), guide construction (lines 96-99) and
the inference call (line 102). -/
def trialTrace (c : Config) (s : ℕ) : List Event :=
  [Event.setSeed s, Event.buildTorchModel, Event.buildModel (modelDispatch c),
   Event.clearParamStore, Event.buildGuide (guideDispatch c), Event.runInference]

/-- The side effects of the whole seed loop, experiments.py line 78. -/
def experimentTrace (c : Config) : List Event :=
  (List.range c.seed).flatMap (trialTrace c)

/-- The seed values passed to pyro.set_rng_seed along a trace, in order. -/
def seedEvents (tr : List Event) : List ℕ :=
  tr.filterMap fun e =>
    match e with
    | Event.setSeed s => some s
    | _ => none

/-- One pass of the trial loop over a list of seed values: each trial runs
the backend for its seed and extracts the diagnostics; a KeyError aborts
the remaining seeds, experiments.py lines 78-134. -/
def runTrialsFrom (backend : ℕ → Diagnostics) : List ℕ → Except DiagKey (List TrialMetrics)
  | [] => Except.ok []
  | s :: rest =>
    (extractDiagnostics (backend s)).bind fun t =>
      (runTrialsFrom backend rest).bind fun ts => Except.ok (t :: ts)

/-- The fourteen per-metric lists built by the appends of experiments.py
lines 109-134, one entry per trial in seed order. -/
def buildSeries (ts : List TrialMetrics) : MetricSeries :=
  { train_times := ts.map fun t => t.train_time
    inf_times := ts.map fun t => t.inference_time
    cal_errors := ts.map fun t => t.cal_error
    new_cal_errors := ts.map fun t => t.new_cal_error
    e_crpss := ts.map fun t => t.e_crps
    crpss := ts.map fun t => t.crps
    new_crpss := ts.map fun t => t.new_crps
    losses := ts.map fun t => t.final_loss
    widths := ts.map fun t => t.width
    new_widths := ts.map fun t => t.new_width
    mses := ts.map fun t => t.mse
    new_mses := ts.map fun t => t.new_mse
    coverages := ts.map fun t => t.coverage
    new_coverages := ts.map fun t => t.new_coverage }

/-- The trial loop of experiments.py lines 78-134: config.seed trials over
seeds 0 .. config.seed - 1, producing the per-metric series. -/
def runTrials (c : Config) (backend : ℕ → Diagnostics) : Except DiagKey MetricSeries :=
  (runTrialsFrom backend (List.range c.seed)).map buildSeries

/-- numpy mean, as called on each series at experiments.py lines 138-165:
the sum divided by the length. -/
def npMean (v : List ℚ) : ℚ := v.sum / (v.length : ℚ)

/-- The square of numpy std with the delta-degrees-of-freedom parameter
made explicit; numpy std is the nonnegative square root of this value. -/
def npVarDdof (ddof : ℕ) (v : List ℚ) : ℚ :=
  (v.map fun x => (x - npMean v) ^ 2).sum / ((v.length : ℚ) - (ddof : ℚ))

/-- The square of numpy std as called at experiments.py lines 138-165:
the calls use the numpy default ddof = 0. -/
def npVar (v : List ℚ) : ℚ := npVarDdof 0 v

/-- The mean formula written in the specification: sum(v)/n. -/
def specMean (v : List ℚ) : ℚ := v.sum / (v.length : ℚ)

/-- The population variance formula written in the specification:
sum((vi-mean)^2)/n, the square of the population standard deviation. -/
def specVariancePop (v : List ℚ) : ℚ :=
  (v.map fun x => (x - specMean v) ^ 2).sum / (v.length : ℚ)

/-- x is the standard deviation of v reported by the aggregator: the
nonnegative square root of the ddof = 0 variance. Stated through the
square because the square root of a rational need not be rational. -/
def IsStd (v : List ℚ) (x : ℚ) : Prop := 0 ≤ x ∧ x ^ 2 = npVar v

/-- The name under which a wandb.log call records a scalar,
experiments.py lines 168-193. -/
inductive LogName
  | m_train_time
  | s_train_time
  | m_cal_error
  | s_cal_error
  | m_new_cal_error
  | s_new_cal_error
  | m_e_crps
  | s_e_crps
  | m_crps
  | s_crps
  | m_new_crps
  | s_new_crps
  | m_mse
  | s_mse
  | m_new_mse
  | s_new_mse
  | m_width
  | s_width
  | m_new_width
  | s_new_width
  | m_cov
  | s_cov
  | m_new_cov
  | s_new_cov
  | m_final_loss
  | s_final_loss
  | m_inf_time
  | s_inf_time
deriving DecidableEq, Repr

/-- Which aggregate a logged value is: a numpy mean or a numpy std. -/
inductive AggStat
  | mean
  | std
deriving DecidableEq, Repr

/-- The Python per-metric list a logged aggregate was computed from. -/
inductive SeriesName
  | train_times
  | inf_times
  | cal_errors
  | new_cal_errors
  | e_crpss
  | crpss
  | new_crpss
  | losses
  | widths
  | new_widths
  | mses
  | new_mses
  | coverages
  | new_coverages
deriving DecidableEq, Repr

/-- The 26 wandb.log calls of experiments.py lines 168-193, in program
order: each entry is the logged name together with which aggregate of
which per-metric list the logged variable holds (per the assignments at
lines 138-165). Line 193 logs the variable s_loss, the std of losses,
under the name m_final_loss. -/
def wandbLogCalls : List (LogName × AggStat × SeriesName) :=
  [(LogName.m_train_time, AggStat.mean, SeriesName.train_times),
   (LogName.s_train_time, AggStat.std, SeriesName.train_times),
   (LogName.m_cal_error, AggStat.mean, SeriesName.cal_errors),
   (LogName.s_cal_error, AggStat.std, SeriesName.cal_errors),
   (LogName.m_new_cal_error, AggStat.mean, SeriesName.new_cal_errors),
   (LogName.s_new_cal_error, AggStat.std, SeriesName.new_cal_errors),
   (LogName.m_e_crps, AggStat.mean, SeriesName.e_crpss),
   (LogName.s_e_crps, AggStat.std, SeriesName.e_crpss),
   (LogName.m_crps, AggStat.mean, SeriesName.crpss),
   (LogName.s_crps, AggStat.std, SeriesName.crpss),
   (LogName.m_new_crps, AggStat.mean, SeriesName.new_crpss),
   (LogName.s_new_crps, AggStat.std, SeriesName.new_crpss),
   (LogName.m_mse, AggStat.mean, SeriesName.mses),
   (LogName.s_mse, AggStat.std, SeriesName.mses),
   (LogName.m_new_mse, AggStat.mean, SeriesName.new_mses),
   (LogName.s_new_mse, AggStat.std, SeriesName.new_mses),
   (LogName.m_width, AggStat.mean, SeriesName.widths),
   (LogName.s_width, AggStat.std, SeriesName.widths),
   (LogName.m_new_width, AggStat.mean, SeriesName.new_widths),
   (LogName.s_new_width, AggStat.std, SeriesName.new_widths),
   (LogName.m_cov, AggStat.mean, SeriesName.coverages),
   (LogName.s_cov, AggStat.std, SeriesName.coverages),
   (LogName.m_new_cov, AggStat.mean, SeriesName.new_coverages),
   (LogName.s_new_cov, AggStat.std, SeriesName.new_coverages),
   (LogName.m_final_loss, AggStat.mean, SeriesName.losses),
   (LogName.m_final_loss, AggStat.std, SeriesName.losses)]

/-- The six arrays of the embedding cache as bound by experiments.py
lines 54-58: train targets, train embeddings, validation targets,
validation embeddings, test targets, test embeddings. -/
structure EmbeddingBundle where
  Ytr : List ℚ
  train_embedding : List (List ℚ)
  Yval : List ℚ
  val_embedding : List (List ℚ)
  Yte : List ℚ
  test_embedding : List (List ℚ)
deriving DecidableEq, Repr

/-- The ingestion of the six cached arrays at experiments.py line 55:
the tuple returned by torch.load is destructured into the six variables
directly, with no validation of any kind. -/
def loadBundle (ytr : List ℚ) (tre : List (List ℚ)) (yval : List ℚ)
    (vale : List (List ℚ)) (yte : List ℚ) (tee : List (List ℚ)) : EmbeddingBundle :=
  { Ytr := ytr
    train_embedding := tre
    Yval := yval
    val_embedding := vale
    Yte := yte
    test_embedding := tee }

/-- The value returned by generate_datasets, data_loaders.py line 114.
Rows of the input matrices are pairs after the constant column is
appended at lines 110-112; targets and the difference arrays stay
one-dimensional per row. -/
structure SplitBundle where
  Xtr : List (ℚ × ℚ)
  Ytr : List ℚ
  Xval : List (ℚ × ℚ)
  Yval : List ℚ
  Xte : List (ℚ × ℚ)
  Yte : List ℚ
  diffXte : List ℚ
  diffYte : List ℚ
deriving DecidableEq, Repr

/-- A fitted sklearn scaler as used by generate_datasets: transform is the
fitted transformation, transformNoMean is the transformation after the
with_mean attribute is set to False at data_loaders.py line 105. The
scaler class is a parameter of generate_datasets in the source; it is a
parameter here as well. -/
structure FittedScaler where
  transform : ℚ → ℚ
  transformNoMean : ℚ → ℚ

/-- Python slicing a[:-k], data_loaders.py lines 66 and 68: for k = 0 the
slice a[:0] is empty, otherwise the last k entries are dropped. -/
def sliceToNeg (k : ℕ) (l : List α) : List α :=
  if k = 0 then [] else l.take (l.length - k)

/-- Python slicing a[-k:], data_loaders.py lines 84-87: for k = 0 the
slice a[0:] is the whole list, otherwise the last k entries. -/
def sliceFromNeg (k : ℕ) (l : List α) : List α :=
  if k = 0 then l else l.drop (l.length - k)

/-- Python slicing a[i:-k], data_loaders.py lines 81-82: for k = 0 the
slice a[i:0] is empty, otherwise the entries from index i up to index
length - k (exclusive). -/
def sliceBetween (i k : ℕ) (l : List α) : List α :=
  if k = 0 then [] else (l.drop i).take (l.length - k - i)

def assertMsg : String := "The forecast horizon must be smaller or equal to the seasonality."

/-- generate_datasets, data_loaders.py lines 51-114, over a univariate
series of rationals. The assert at line 56 is the error case. sn is the
seasonal difference s.diff(L)[L:] (lines 61-62), diff is data[L:] - sn
(line 64). n_tr is computed with truncating natural subtraction; in the
source the subtraction at line 75 is over Python ints, which agree with
this whenever n_te + n_val does not exceed n_data. The scaler argument
yields the fitted transformations of lines 90-107; the constant input
column is appended at lines 110-112. -/
def generate_datasets (data : List ℚ) (seasonality forecast_horizon : ℕ)
    (test_percent val_percent : ℚ) (scaler : List ℚ → FittedScaler) :
    Except String SplitBundle :=
  let L := seasonality
  let F := forecast_horizon
  if F ≤ L then
    let sn := List.zipWith (fun a b => a - b) (data.drop L) data
    let diff := List.zipWith (fun a b => a - b) (data.drop L) sn
    let X := sliceToNeg F sn
    let Y := sn.drop F
    let diffX := sliceToNeg F diff
    let diffY := diff.drop F
    let n_data := X.length
    let n_te := (Int.ceil (test_percent * (n_data : ℚ))).toNat
    let n_val := (Int.ceil (val_percent * (n_data : ℚ))).toNat
    let n_tr := n_data - n_te - n_val
    let Xtr := X.take n_tr
    let Ytr := Y.take n_tr
    let Xval := sliceBetween n_tr n_te X
    let Yval := sliceBetween n_tr n_te Y
    let Xte := sliceFromNeg n_te X
    let Yte := sliceFromNeg n_te Y
    let diffXte := sliceFromNeg n_te diffX
    let diffYte := sliceFromNeg n_te diffY
    let Xscaler := scaler Xtr
    let Yscaler := scaler Ytr
    Except.ok
      { Xtr := (Xtr.map Xscaler.transform).map fun x => (x, 1)
        Ytr := Ytr.map Yscaler.transform
        Xval := (Xval.map Xscaler.transform).map fun x => (x, 1)
        Yval := Yval.map Yscaler.transform
        Xte := (Xte.map Xscaler.transform).map fun x => (x, 1)
        Yte := Yte.map Yscaler.transform
        diffXte := diffXte.map Xscaler.transformNoMean
        diffYte := diffYte.map Xscaler.transformNoMean }
  else Except.error assertMsg

/-! Concrete fixtures used by counterexamples and witnesses. -/

def bogusName : String := "not_a_method"

/-- The default configuration with an inference name outside the
recognized enumeration. -/
def cBogus : Config := { cDefault with inference := bogusName }

/-- The default configuration with dimensionality reduction enabled. -/
def cDimRed : Config := { cDefault with dim_reduction := true }

/-- The default configuration with two seeds. -/
def cTwo : Config := { cDefault with seed := 2 }

/-- A diagnostics record that omits the mse key but has every other
mandatory key. -/
def dMissingMse : Diagnostics :=
  { train_time := some 1
    cal_error := some 1
    new_cal_error := some 1
    width := some 1
    new_width := some 1
    crps := some 1
    new_crps := some 1
    mse := none
    new_mse := some 1
    coverage := some 1
    new_coverage := some 1
    final_loss := none
    inference_time := none
    e_crps := none }

/-- A diagnostics record that omits the train_time key. -/
def dMissingTT : Diagnostics :=
  { train_time := none
    cal_error := some 1
    new_cal_error := some 1
    width := some 1
    new_width := some 1
    crps := some 1
    new_crps := some 1
    mse := some 1
    new_mse := some 1
    coverage := some 1
    new_coverage := some 1
    final_loss := some 1
    inference_time := some 1
    e_crps := some 1 }

/-- A backend that always omits the train_time key. -/
def bkMissing : ℕ → Diagnostics := fun _ => dMissingTT

/-- A diagnostics record with every key of the vocabulary present. -/
def dFull : Diagnostics :=
  { train_time := some 1
    cal_error := some 2
    new_cal_error := some 3
    width := some 4
    new_width := some 5
    crps := some 6
    new_crps := some 7
    mse := some 8
    new_mse := some 9
    coverage := some 10
    new_coverage := some 11
    final_loss := some 12
    inference_time := some 13
    e_crps := some 14 }

/-- The trial metrics extracted from dFull. -/
def tFull : TrialMetrics :=
  { train_time := 1
    cal_error := 2
    new_cal_error := 3
    width := 4
    new_width := 5
    crps := 6
    new_crps := 7
    mse := 8
    new_mse := 9
    coverage := 10
    new_coverage := 11
    final_loss := 12
    inference_time := 13
    e_crps := 14 }

/-- A backend that always returns the full record dFull. -/
def backendFull : ℕ → Diagnostics := fun _ => dFull

/-- A ten-sample constant series used as concrete generate_datasets
input. -/
def dataW : List ℚ := [0, 0, 0, 0, 0, 0, 0, 0, 0, 0]

def pcW : ℚ := 15 / 100

/-- A concrete scaler whose fitted transformations are the identity. -/
def scalerW : List ℚ → FittedScaler :=
  fun _ => { transform := fun x => x, transformNoMean := fun x => x }

/-- The bundle generate_datasets returns on dataW with seasonality 2,
forecast horizon 1 and 15 percent test and validation shares. -/
def bundleW : SplitBundle :=
  { Xtr := [(0, 1), (0, 1), (0, 1)]
    Ytr := [0, 0, 0]
    Xval := [(0, 1), (0, 1)]
    Yval := [0, 0]
    Xte := [(0, 1), (0, 1)]
    Yte := [0, 0]
    diffXte := [0, 0]
    diffYte := [0, 0] }

/-! Helper lemmas. -/

/-- If extraction succeeds, every one of the eleven mandatory keys was
present in the record. -/
theorem extract_ok_isSome (d : Diagnostics) (t : TrialMetrics)
    (h : extractDiagnostics d = Except.ok t) :
    d.train_time.isSome ∧ d.cal_error.isSome ∧ d.new_cal_error.isSome ∧
    d.width.isSome ∧ d.new_width.isSome ∧ d.crps.isSome ∧ d.new_crps.isSome ∧
    d.mse.isSome ∧ d.new_mse.isSome ∧ d.coverage.isSome ∧ d.new_coverage.isSome := by
  cases h1 : d.train_time with
  | none => simp [extractDiagnostics, reqKey, h1, Except.bind] at h
  | some a1 =>
  cases h2 : d.cal_error with
  | none => simp [extractDiagnostics, reqKey, h1, h2, Except.bind] at h
  | some a2 =>
  cases h3 : d.new_cal_error with
  | none => simp [extractDiagnostics, reqKey, h1, h2, h3, Except.bind] at h
  | some a3 =>
  cases h4 : d.width with
  | none => simp [extractDiagnostics, reqKey, h1, h2, h3, h4, Except.bind] at h
  | some a4 =>
  cases h5 : d.new_width with
  | none => simp [extractDiagnostics, reqKey, h1, h2, h3, h4, h5, Except.bind] at h
  | some a5 =>
  cases h6 : d.crps with
  | none => simp [extractDiagnostics, reqKey, h1, h2, h3, h4, h5, h6, Except.bind] at h
  | some a6 =>
  cases h7 : d.new_crps with
  | none => simp [extractDiagnostics, reqKey, h1, h2, h3, h4, h5, h6, h7, Except.bind] at h
  | some a7 =>
  cases h8 : d.mse with
  | none => simp [extractDiagnostics, reqKey, h1, h2, h3, h4, h5, h6, h7, h8, Except.bind] at h
  | some a8 =>
  cases h9 : d.new_mse with
  | none => simp [extractDiagnostics, reqKey, h1, h2, h3, h4, h5, h6, h7, h8, h9, Except.bind] at h
  | some a9 =>
  cases h10 : d.coverage with
  | none =>
    simp [extractDiagnostics, reqKey, h1, h2, h3, h4, h5, h6, h7, h8, h9, h10, Except.bind] at h
  | some a10 =>
  cases h11 : d.new_coverage with
  | none =>
    simp [extractDiagnostics, reqKey, h1, h2, h3, h4, h5, h6, h7, h8, h9, h10, h11,
      Except.bind] at h
  | some a11 => simp [h1, h2, h3, h4, h5, h6, h7, h8, h9, h10, h11]

/-- When every seed extracts successfully, the loop over a seed list
returns the map of the extracted records. -/
theorem runTrialsFrom_ok_of_all (backend : ℕ → Diagnostics) (f : ℕ → TrialMetrics)
    (hbk : ∀ s, extractDiagnostics (backend s) = Except.ok (f s)) (l : List ℕ) :
    runTrialsFrom backend l = Except.ok (l.map f) := by
  induction l with
  | nil => rfl
  | cons s rest ih => simp [runTrialsFrom, hbk s, Except.bind, ih]

/-- The seeds passed to the generator along a concatenation of trial
traces are exactly the seed list. -/
theorem seedEvents_flatMap (c : Config) (l : List ℕ) :
    seedEvents (l.flatMap (trialTrace c)) = l := by
  induction l with
  | nil => rfl
  | cons s rest ih =>
    simp only [List.flatMap_cons, seedEvents, List.filterMap_append] at ih ⊢
    rw [ih]
    rfl

/-- Each trial trace holds exactly one inference invocation. -/
theorem infCount_flatMap (c : Config) (l : List ℕ) :
    ((l.flatMap (trialTrace c)).filter Event.isRunInference).length = l.length := by
  induction l with
  | nil => rfl
  | cons s rest ih =>
    simp only [List.flatMap_cons, List.filter_append, List.length_append, ih]
    have h1 : (List.filter Event.isRunInference (trialTrace c s)).length = 1 := rfl
    rw [h1, List.length_cons]
    omega

/-! Claim theorems. -/

/-- Claim C1, counterexample: a diagnostics record that omits the mse key
is not filled with a zero default; extraction aborts with a key-lookup
error on mse, so the claim that every absent key of the vocabulary is
defaulted to zero is false. -/
theorem extract_missing_mse_aborts :
    extractDiagnostics dMissingMse = Except.error DiagKey.mse := rfl

/-- Claim C1 (amended): only the three keys final_loss, inference_time and
e_crps are defaulted to zero when absent from the backend record; when the
other eleven keys are all present, extraction succeeds and yields the full
key set, with the three optional keys replaced by zero where absent. -/
theorem only_three_keys_defaulted (a1 a2 a3 a4 a5 a6 a7 a8 a9 a10 a11 : ℚ)
    (fl it ec : Option ℚ) :
    extractDiagnostics
      { train_time := some a1
        cal_error := some a2
        new_cal_error := some a3
        width := some a4
        new_width := some a5
        crps := some a6
        new_crps := some a7
        mse := some a8
        new_mse := some a9
        coverage := some a10
        new_coverage := some a11
        final_loss := fl
        inference_time := it
        e_crps := ec } =
    Except.ok
      { train_time := a1
        cal_error := a2
        new_cal_error := a3
        width := a4
        new_width := a5
        crps := a6
        new_crps := a7
        mse := a8
        new_mse := a9
        coverage := a10
        new_coverage := a11
        final_loss := fl.getD 0
        inference_time := it.getD 0
        e_crps := ec.getD 0 } := rfl

/-- Claim C10: only final_loss, inference_time and e_crps are defaulted;
a record that omits any of the other eleven keys makes extraction raise a
key-lookup error, and such an error in the first trial aborts the whole
experiment instead of substituting a default. -/
theorem missing_mandatory_key_aborts :
    (∀ d : Diagnostics,
      (d.train_time = none ∨ d.cal_error = none ∨ d.new_cal_error = none ∨
       d.width = none ∨ d.new_width = none ∨ d.crps = none ∨ d.new_crps = none ∨
       d.mse = none ∨ d.new_mse = none ∨ d.coverage = none ∨ d.new_coverage = none) →
      ∃ k, extractDiagnostics d = Except.error k) ∧
    (∀ (c : Config) (backend : ℕ → Diagnostics) (k : DiagKey),
      0 < c.seed → extractDiagnostics (backend 0) = Except.error k →
      runTrials c backend = Except.error k) := by
  constructor
  · intro d hd
    cases hext : extractDiagnostics d with
    | error k => exact ⟨k, rfl⟩
    | ok t =>
      have hs := extract_ok_isSome d t hext
      rcases hd with h | h | h | h | h | h | h | h | h | h | h <;> simp [h] at hs
  · intro c backend k hpos hext
    obtain ⟨m, hm⟩ := Nat.exists_eq_succ_of_ne_zero (Nat.pos_iff_ne_zero.mp hpos)
    rw [runTrials, hm, List.range_succ_eq_map]
    simp [runTrialsFrom, hext, Except.bind, Except.map]

/-- Claim C10, witness: the record missing train_time makes extraction
fail, and with one configured seed the whole run returns that error. -/
theorem missing_mandatory_key_aborts_witness :
    (∃ k, extractDiagnostics dMissingTT = Except.error k) ∧
    runTrials cDefault bkMissing = Except.error DiagKey.train_time :=
  ⟨missing_mandatory_key_aborts.1 dMissingTT (Or.inl rfl),
   missing_mandatory_key_aborts.2 cDefault bkMissing DiagKey.train_time (by decide) rfl⟩

/-- Claim C2, counterexample: with an inference name outside the
recognized enumeration the dispatch of experiments.py lines 83-88 raises
no configuration error; it falls through to the default BayesianModel
branch, and the first trial proceeds (the seed is set, the parameter
store is cleared, a guide is built and inference is invoked), so trial
side effects do occur. -/
theorem unknown_inference_no_error :
    modelDispatch cBogus = ModelKind.bayesian ∧
    (experimentTrace cBogus).head? = some (Event.setSeed 0) ∧
    Event.clearParamStore ∈ experimentTrace cBogus ∧
    Event.buildModel ModelKind.bayesian ∈ experimentTrace cBogus ∧
    Event.runInference ∈ experimentTrace cBogus := by decide

/-- Claim C2 (amended): experiments.py never validates config.inference;
any value that is neither ssvs nor q_regr reaches the default else branch
of lines 83-88, inside the trial loop, after the seed of that trial is set
and the shared TorchModel is constructed; no configuration error naming
the value is raised by this module. -/
theorem unknown_inference_defaults_to_bayesian (c : Config)
    (h1 : c.inference ≠ ssvsName) (h2 : c.inference ≠ qRegrName) :
    modelDispatch c = ModelKind.bayesian ∧
    ∀ i : ℕ, (trialTrace c i).head? = some (Event.setSeed i) ∧
      (trialTrace c i)[2]? = some (Event.buildModel ModelKind.bayesian) := by
  have hd : modelDispatch c = ModelKind.bayesian := by
    simp [modelDispatch, h1, h2]
  refine ⟨hd, fun i => ⟨rfl, ?_⟩⟩
  simp [trialTrace, hd]

/-- Claim C2 (amended), witness at the concrete unrecognized name. -/
theorem unknown_inference_defaults_witness :
    modelDispatch cBogus = ModelKind.bayesian ∧
    (trialTrace cBogus 0).head? = some (Event.setSeed 0) ∧
    (trialTrace cBogus 0)[2]? = some (Event.buildModel ModelKind.bayesian) := by
  have h := unknown_inference_defaults_to_bayesian cBogus (by decide) (by decide)
  exact ⟨h.1, (h.2 0).1, (h.2 0).2⟩

/-- Claim C4: the trial loop performs exactly config.seed trials (one
inference invocation each), the seeds passed to the generator are
0 .. config.seed - 1 in order, and within each trial the generator is
seeded first: the seeding event is the head of the trial trace, before
the TorchModel and dispatched model constructions (index 2) and the guide
construction (index 4). -/
theorem seed_iteration (c : Config) (i : ℕ) :
    seedEvents (experimentTrace c) = List.range c.seed ∧
    ((experimentTrace c).filter Event.isRunInference).length = c.seed ∧
    (trialTrace c i).head? = some (Event.setSeed i) ∧
    (trialTrace c i).findIdx Event.isSetSeed = 0 ∧
    (trialTrace c i).findIdx Event.isBuildModel = 2 ∧
    (trialTrace c i).findIdx Event.isBuildGuide = 4 := by
  refine ⟨?_, ?_, rfl, rfl, rfl, rfl⟩
  · have h := seedEvents_flatMap c (List.range c.seed)
    simpa [List.length_range] using h
  · have h := infCount_flatMap c (List.range c.seed)
    simpa [List.length_range] using h

/-- Claim C5, counterexample: under the default configuration the model
is built at trace index 2 while pyro.clear_param_store() runs at trace
index 3, so the parameter store is not cleared before the model of the
trial is built; the claim that step 2 precedes step 3 is false on the
code. -/
theorem clear_store_not_before_model :
    (trialTrace cDefault 0).findIdx Event.isBuildModel = 2 ∧
    (trialTrace cDefault 0).findIdx Event.isClearStore = 3 := by decide

/-- Claim C5 (amended): in every trial the parameter store is cleared
after the model of that trial is constructed, but before the guide is
constructed and before inference runs (experiments.py lines 82-102). -/
theorem clear_store_after_model_before_guide (c : Config) (i : ℕ) :
    (trialTrace c i).findIdx Event.isBuildModel <
      (trialTrace c i).findIdx Event.isClearStore ∧
    (trialTrace c i).findIdx Event.isClearStore <
      (trialTrace c i).findIdx Event.isBuildGuide ∧
    (trialTrace c i).findIdx Event.isClearStore <
      (trialTrace c i).findIdx Event.isRunInference := by
  have h1 : (trialTrace c i).findIdx Event.isBuildModel = 2 := rfl
  have h2 : (trialTrace c i).findIdx Event.isClearStore = 3 := rfl
  have h3 : (trialTrace c i).findIdx Event.isBuildGuide = 4 := rfl
  have h4 : (trialTrace c i).findIdx Event.isRunInference = 5 := rfl
  rw [h1, h2, h3, h4]
  omega

/-- Claim C6: when every trial extracts successfully (the loop completes
normally), each of the fourteen per-metric series has length exactly
config.seed, and its i-th entry is the value extracted from the backend
record of seed i, whichever backend ran. -/
theorem per_metric_series_lengths (c : Config) (backend : ℕ → Diagnostics)
    (f : ℕ → TrialMetrics)
    (hbk : ∀ s, extractDiagnostics (backend s) = Except.ok (f s)) :
    ∃ ms : MetricSeries, runTrials c backend = Except.ok ms ∧
      ms.train_times.length = c.seed ∧ ms.inf_times.length = c.seed ∧
      ms.cal_errors.length = c.seed ∧ ms.new_cal_errors.length = c.seed ∧
      ms.e_crpss.length = c.seed ∧ ms.crpss.length = c.seed ∧
      ms.new_crpss.length = c.seed ∧ ms.losses.length = c.seed ∧
      ms.widths.length = c.seed ∧ ms.new_widths.length = c.seed ∧
      ms.mses.length = c.seed ∧ ms.new_mses.length = c.seed ∧
      ms.coverages.length = c.seed ∧ ms.new_coverages.length = c.seed ∧
      ms.train_times = (List.range c.seed).map (fun s => (f s).train_time) ∧
      ms.inf_times = (List.range c.seed).map (fun s => (f s).inference_time) ∧
      ms.cal_errors = (List.range c.seed).map (fun s => (f s).cal_error) ∧
      ms.new_cal_errors = (List.range c.seed).map (fun s => (f s).new_cal_error) ∧
      ms.e_crpss = (List.range c.seed).map (fun s => (f s).e_crps) ∧
      ms.crpss = (List.range c.seed).map (fun s => (f s).crps) ∧
      ms.new_crpss = (List.range c.seed).map (fun s => (f s).new_crps) ∧
      ms.losses = (List.range c.seed).map (fun s => (f s).final_loss) ∧
      ms.widths = (List.range c.seed).map (fun s => (f s).width) ∧
      ms.new_widths = (List.range c.seed).map (fun s => (f s).new_width) ∧
      ms.mses = (List.range c.seed).map (fun s => (f s).mse) ∧
      ms.new_mses = (List.range c.seed).map (fun s => (f s).new_mse) ∧
      ms.coverages = (List.range c.seed).map (fun s => (f s).coverage) ∧
      ms.new_coverages = (List.range c.seed).map (fun s => (f s).new_coverage) := by
  have h := runTrialsFrom_ok_of_all backend f hbk (List.range c.seed)
  refine ⟨buildSeries ((List.range c.seed).map f), ?_, ?_⟩
  · rw [runTrials, h]
    rfl
  · simp [buildSeries, List.map_map, Function.comp, List.length_map, List.length_range]

/-- Claim C6, witness: two seeds with the full backend give series of
length two. -/
theorem per_metric_series_lengths_witness :
    ∃ ms : MetricSeries, runTrials cTwo backendFull = Except.ok ms ∧
      ms.train_times.length = 2 ∧ ms.losses = [12, 12] := by
  obtain ⟨ms, hok, h⟩ :=
    per_metric_series_lengths cTwo backendFull (fun _ => tFull) (fun _ => rfl)
  refine ⟨ms, hok, ?_, ?_⟩
  · exact h.1
  · have := h.2.2.2.2.2.2.2.2.2.2.2.2.2.2.2.2.2.2.2.2.2.1
    simpa using this

/-- Claim C7: in every trial the guide is chosen by the
dimensionality-reduction flag, experiments.py lines 96-99: a
full-covariance AutoMultivariateNormal when the flag is set, an
AutoLowRankMultivariateNormal with the configured rank otherwise; the
guide construction is trace index 4 of each trial. -/
theorem guide_dispatch_by_dim_reduction (c : Config) (i : ℕ) :
    (c.dim_reduction = true →
      (trialTrace c i)[4]? = some (Event.buildGuide GuideKind.autoMultivariateNormal)) ∧
    (c.dim_reduction = false →
      (trialTrace c i)[4]? =
        some (Event.buildGuide (GuideKind.autoLowRankMultivariateNormal c.rank))) := by
  constructor <;> intro h <;> simp [trialTrace, guideDispatch, h]

/-- Claim C7, witness at a configuration with the flag set and one with
the flag cleared. -/
theorem guide_dispatch_by_dim_reduction_witness :
    (trialTrace cDimRed 0)[4]? = some (Event.buildGuide GuideKind.autoMultivariateNormal) ∧
    (trialTrace cDefault 0)[4]? =
      some (Event.buildGuide (GuideKind.autoLowRankMultivariateNormal none)) :=
  ⟨(guide_dispatch_by_dim_reduction cDimRed 0).1 rfl,
   (guide_dispatch_by_dim_reduction cDefault 0).2 rfl⟩

/-- Claim C3: the aggregator of experiments.py lines 138-165 computes, for
a series of length n at least one, the mean sum(v)/n and the population
standard deviation (numpy default ddof = 0), i.e. the nonnegative square
root of sum((vi - mean)^2)/n; on [2, 4] it yields mean 3 and std 1, and on
a singleton the std is 0. -/
theorem aggregate_mean_popstd (v : List ℚ) (_hv : v ≠ []) (a : ℚ) :
    npMean v = specMean v ∧ npVar v = specVariancePop v ∧
    npMean [2, 4] = 3 ∧ IsStd [2, 4] 1 ∧
    npMean [a] = a ∧ IsStd [a] 0 := by
  refine ⟨rfl, ?_, by norm_num [npMean, List.sum_cons], ?_, ?_, ?_⟩
  · simp [npVar, npVarDdof, specVariancePop, specMean, npMean]
  · constructor
    · norm_num
    · norm_num [npVar, npVarDdof, npMean, List.sum_cons]
  · simp [npMean]
  · constructor
    · norm_num
    · simp [npVar, npVarDdof, npMean]

/-- Claim C3, witness at [2, 4] and the singleton [5]. -/
theorem aggregate_mean_popstd_witness :
    npMean [2, 4] = 3 ∧ IsStd [2, 4] 1 ∧ npMean [(5 : ℚ)] = 5 ∧ IsStd [(5 : ℚ)] 0 := by
  have h := aggregate_mean_popstd [2, 4] (by decide) 5
  exact ⟨h.2.2.1, h.2.2.2.1, h.2.2.2.2.1, h.2.2.2.2.2⟩

/-- Claim C8: false on the code as a code bug. Line 193 of experiments.py
logs the variable s_loss (the std of the losses series) under the name
m_final_loss, so that name receives two wandb.log calls while
s_final_loss receives none; furthermore the computed aggregates of the
inference-time series (lines 140-141) are never logged at all. Every
other series has its mean and std logged exactly once each under its own
distinct name. -/
theorem final_loss_std_misnamed :
    (wandbLogCalls.filter fun p => p.1 = LogName.m_final_loss).length = 2 ∧
    (wandbLogCalls.filter fun p => p.1 = LogName.s_final_loss).length = 0 ∧
    wandbLogCalls[25]? = some (LogName.m_final_loss, AggStat.std, SeriesName.losses) ∧
    (wandbLogCalls.filter fun p => p.2.2 = SeriesName.inf_times).length = 0 ∧
    (wandbLogCalls.filter fun p => p.1 = LogName.m_train_time).length = 1 ∧
    (wandbLogCalls.filter fun p => p.1 = LogName.s_train_time).length = 1 ∧
    wandbLogCalls.length = 26 := by decide

/-- The row counts of X = sn[:-F] and Y = sn[F:] agree whenever the
forecast horizon is at least one. -/
theorem sliceToNeg_drop_length (F : ℕ) (hF0 : F ≠ 0) (sn : List ℚ) :
    (sliceToNeg F sn).length = (sn.drop F).length := by
  simp only [sliceToNeg, if_neg hF0, List.length_take, List.length_drop]
  omega

/-- Python slicing a[i:-k] yields the same row count on any two lists of
equal length. -/
theorem sliceBetween_length_congr (i k : ℕ) (l1 : List α) (l2 : List β)
    (h : l1.length = l2.length) :
    (sliceBetween i k l1).length = (sliceBetween i k l2).length := by
  by_cases hk : k = 0 <;> simp [sliceBetween, hk, h]

/-- Python slicing a[-k:] yields the same row count on any two lists of
equal length. -/
theorem sliceFromNeg_length_congr (k : ℕ) (l1 : List α) (l2 : List β)
    (h : l1.length = l2.length) :
    (sliceFromNeg k l1).length = (sliceFromNeg k l2).length := by
  by_cases hk : k = 0 <;> simp [sliceFromNeg, hk, h]

/-- Claim C9, counterexample: the embedding-bundle construction of
experiments.py line 55 accepts, without any error, six arrays in which
the train-target count (one row) differs from the train-embedding row
count (two rows); no fail-fast rejection of a mismatched bundle exists in
the code. -/
theorem bundle_ingestion_unchecked :
    (loadBundle [1] [[1], [2]] [] [] [] []).Ytr.length = 1 ∧
    (loadBundle [1] [[1], [2]] [] [] [] []).train_embedding.length = 2 := by decide

/-- Claim C9 (amended): no explicit row-count validation exists at bundle
construction; instead, generate_datasets makes a within-split mismatch
impossible by construction: inputs and targets of every split are slices
of one common de-seasonalized array taken at identical indices, so for
any forecast horizon of at least one, every returned split has equal
input and target row counts, and nothing is truncated to a shorter
length; the only fail-fast check is the assert that the horizon does not
exceed the seasonality. -/
theorem splits_row_counts_match (data : List ℚ) (L F : ℕ) (tp vp : ℚ)
    (scaler : List ℚ → FittedScaler) (b : SplitBundle)
    (hF1 : 1 ≤ F) (hok : generate_datasets data L F tp vp scaler = Except.ok b) :
    b.Xtr.length = b.Ytr.length ∧ b.Xval.length = b.Yval.length ∧
    b.Xte.length = b.Yte.length ∧ b.diffXte.length = b.diffYte.length := by
  have hF0 : F ≠ 0 := by omega
  by_cases hFL : F ≤ L
  · simp only [generate_datasets, if_pos hFL, Except.ok.injEq] at hok
    subst hok
    have hXY := sliceToNeg_drop_length F hF0
      (List.zipWith (fun a b => a - b) (data.drop L) data)
    have hdXY := sliceToNeg_drop_length F hF0
      (List.zipWith (fun a b => a - b) (data.drop L)
        (List.zipWith (fun a b => a - b) (data.drop L) data))
    refine ⟨?_, ?_, ?_, ?_⟩
    · simp only [List.length_map, List.length_take]
      rw [hXY]
    · simp only [List.length_map]
      exact sliceBetween_length_congr _ _ _ _ hXY
    · simp only [List.length_map]
      exact sliceFromNeg_length_congr _ _ _ hXY
    · simp only [List.length_map]
      exact sliceFromNeg_length_congr _ _ _ hdXY
  · simp only [generate_datasets, if_neg hFL] at hok
    exact absurd hok (by simp)

/-- Claim C9 (amended), witness: on a concrete ten-sample series with
seasonality 2, forecast horizon 1 and 15 percent test and validation
shares, generate_datasets succeeds and each split of the returned bundle
has equal input and target row counts. -/
theorem splits_row_counts_match_witness :
    generate_datasets dataW 2 1 pcW pcW scalerW = Except.ok bundleW ∧
    bundleW.Xtr.length = bundleW.Ytr.length ∧
    bundleW.Xval.length = bundleW.Yval.length ∧
    bundleW.Xte.length = bundleW.Yte.length ∧
    bundleW.diffXte.length = bundleW.diffYte.length := by
  have hok : generate_datasets dataW 2 1 pcW pcW scalerW = Except.ok bundleW := by
    have h2 : (⌈(21 / 20 : ℚ)⌉ : ℤ) = 2 := by
      rw [Int.ceil_eq_iff]
      norm_num
    have h3 : (2 : ℤ).toNat = 2 := rfl
    norm_num [generate_datasets, dataW, pcW, scalerW, bundleW, sliceToNeg, sliceBetween,
      sliceFromNeg, h2, h3]
  exact ⟨hok, splits_row_counts_match dataW 2 1 pcW pcW scalerW bundleW (by decide) hok⟩
